import Mathlib

/-!
Shallow embedding of `TraversabilityEstimation.cpp`
(package `traversability_estimation`): the update-orchestration node that
acquires an elevation map (pull from a remote submap service, or push from a
streamed image topic), hands it to the traversability engine
(`traversabilityMap_`), and serves queries.

External collaborators (the grid_map library, the tf transform listener, the
remote submap service and the engine's compute step) are modelled at their
interface boundary: per-call outcomes are inputs of the embedded functions,
while all control flow of `TraversabilityEstimation.cpp` is translated
line by line.  Scalars (`double` in the source) are modelled as `ℚ`; none of
the verified control flow depends on floating-point rounding.
-/

namespace TraversabilityEstimation

/-- Grid geometry (frame, resolution, cell counts, physical lengths, anchor
position) shared by all layers of one `grid_map::GridMap`. -/
structure Geometry where
  frameId : String
  resolution : ℚ
  sizeX : Nat
  sizeY : Nat
  lengthX : ℚ
  lengthY : ℚ
  positionX : ℚ
  positionY : ℚ
deriving DecidableEq, Repr

/-- Model of `grid_map::GridMap`: a geometry, a timestamp and named layers of
per-cell values (each layer's cells flattened to a list). -/
structure GridMap where
  geometry : Geometry
  timestamp : Nat
  layers : List (String × List ℚ)
deriving DecidableEq, Repr

namespace GridMap

/-- Model of `grid_map::GridMap::exists(layer)`. -/
def hasLayer (m : GridMap) (name : String) : Bool :=
  m.layers.any (fun l => l.1 = name)

/-- First-match lookup in a layer list. -/
def getAux (name : String) : List (String × List ℚ) → List ℚ
  | [] => []
  | l :: L => if l.1 = name then l.2 else getAux name L

/-- Model of `grid_map::GridMap::get(layer)`: the layer's data, or the empty
data for an absent layer (the C++ throws there; no embedded call path reads an
absent layer). -/
def get (m : GridMap) (name : String) : List ℚ :=
  getAux name m.layers

/-- Model of `grid_map::GridMap::add(layer, data)`: replace the layer's data
if the layer exists, otherwise append the layer. -/
def addData (m : GridMap) (name : String) (data : List ℚ) : GridMap :=
  if m.hasLayer name then
    { m with layers := m.layers.map (fun l => if l.1 = name then (name, data) else l) }
  else
    { m with layers := m.layers ++ [(name, data)] }

/-- Model of `grid_map::GridMap::add(layer, value)`: a constant layer over the
whole grid. -/
def add (m : GridMap) (name : String) (value : ℚ) : GridMap :=
  m.addData name (List.replicate (m.geometry.sizeX * m.geometry.sizeY) value)

/-- Model of `grid_map::GridMap::setTimestamp`. -/
def setTimestamp (m : GridMap) (t : Nat) : GridMap :=
  { m with timestamp := t }

end GridMap

/-- Cell-wise difference of two layers, as in
`imageGridMap_.get("upper_bound") - imageGridMap_.get("lower_bound")`. -/
def zipSub (a b : List ℚ) : List ℚ :=
  List.zipWith (fun x y => x - y) a b

/-- Model of a `sensor_msgs::Image`: header frame, pixel grid dimensions and
normalized pixel intensities (flattened). -/
structure Image where
  frameId : String
  rows : Nat
  cols : Nat
  pixels : List ℚ
deriving DecidableEq, Repr

/-- Model of `grid_map::GridMapRosConverter::initializeFromImage`: geometry
from the image's dimensions at the given resolution, anchored at the given
position, with no layers yet. -/
def initializeFromImage (img : Image) (resolution : ℚ) (posX posY : ℚ) : GridMap :=
  { geometry :=
      { frameId := img.frameId
        resolution := resolution
        sizeX := img.rows
        sizeY := img.cols
        lengthX := resolution * img.rows
        lengthY := resolution * img.cols
        positionX := posX
        positionY := posY }
    timestamp := 0
    layers := [] }

/-- Model of `grid_map::GridMapRosConverter::addLayerFromImage`: write the
named layer from pixel intensities scaled to the `[minHeight, maxHeight]`
range. -/
def addLayerFromImage (img : Image) (name : String) (m : GridMap)
    (minHeight maxHeight : ℚ) : GridMap :=
  m.addData name (img.pixels.map (fun p => minHeight + p * (maxHeight - minHeight)))

/-- The fixed required layer set pushed in the constructor
(`elevationMapLayers_`, lines 51-53). -/
def elevationMapLayers : List String :=
  ["elevation", "upper_bound", "lower_bound"]

/-- Configuration read by `readParameters()` (only the fields the embedded
operations consume). -/
structure Config where
  imageResolution : ℚ
  imageMinHeight : ℚ
  imageMaxHeight : ℚ
  imagePositionX : ℚ
  imagePositionY : ℚ
  mapLengthX : ℚ
  mapLengthY : ℚ
deriving DecidableEq, Repr

/-- State of the external traversability engine (`traversabilityMap_`), seen
through the interface the node uses: its elevation input slot
(`setElevationMap` replaces it wholesale), its current traversability payload,
its readiness flag (`traversabilityMapInitialized`) and its configured map
frame id (`getMapFrameId`). -/
structure EngineState where
  elevationInput : Option GridMap
  traversability : GridMap
  initialized : Bool
  mapFrameId : String
deriving DecidableEq, Repr

namespace EngineState

/-- Model of `TraversabilityMap::setElevationMap`: wholesale replacement of
the engine's elevation input; no computation. -/
def setElevationMap (e : EngineState) (m : GridMap) : EngineState :=
  { e with elevationInput := some m }

/-- Model of `TraversabilityMap::computeTraversability`: the engine's internal
computation is opaque, so its outcome is an input (`compute`): on success the
engine replaces its traversability payload and becomes initialized, on failure
it keeps its previous payload untouched. -/
def computeTraversability (compute : Option GridMap → Option GridMap)
    (e : EngineState) : Bool × EngineState :=
  match compute e.elevationInput with
  | some t => (true, { e with traversability := t, initialized := true })
  | none => (false, e)

end EngineState

/-- Opaque behavior of the engine's compute step, fixed for a run. -/
structure Ext where
  compute : Option GridMap → Option GridMap

/-- The submap request built by `requestElevationMap` (the
`grid_map_msgs::GetGridMap` request fields the code fills in). -/
structure SubmapRequest where
  positionX : ℚ
  positionY : ℚ
  lengthX : ℚ
  lengthY : ℚ
  layers : List String
deriving DecidableEq, Repr

/-- Externally visible side effects of one orchestration step: a pull request
sent to the remote submap service, an elevation payload handed to the engine,
or an invocation of the engine's compute step. -/
inductive Effect where
  | pullRequest (req : SubmapRequest)
  | setElevation (m : GridMap)
  | compute
deriving DecidableEq, Repr

/-- Per-trigger outcomes of the external world consulted by a PULL-mode
update: whether `submapClient_.waitForExistence` succeeds, the result of the
tf `transformPoint` lookup (`none` models a thrown `tf::TransformException`),
and the remote service's response (`none` models a failed
`submapClient_.call`). -/
structure PullEnv where
  providerExists : Bool
  transformedPoint : Option (ℚ × ℚ)
  serviceResponse : Option GridMap
deriving Repr

/-- Mutable state of the node: the PULL/PUSH flag `getImageCallback_`, the
accumulated image grid map `imageGridMap_`, and the engine's state. -/
structure NodeState where
  getImageCallback : Bool
  imageGridMap : GridMap
  engine : EngineState
deriving DecidableEq, Repr

/-- Embedding of `TraversabilityEstimation::requestElevationMap`
(lines 240-265): resolve the configured anchor point via tf (abort on
exception, before any service call), then issue the pull request with the
resolved position, the configured lengths and `elevationMapLayers_`.  Returns
the effects performed and the received map (`none` on failure). -/
def requestElevationMap (cfg : Config) (env : PullEnv) :
    List Effect × Option GridMap :=
  match env.transformedPoint with
  | none => ([], none)
  | some p =>
    let req : SubmapRequest :=
      { positionX := p.1
        positionY := p.2
        lengthX := cfg.mapLengthX
        lengthY := cfg.mapLengthY
        layers := elevationMapLayers }
    ([Effect.pullRequest req], env.serviceResponse)

/-- Embedding of `TraversabilityEstimation::updateTraversability`
(lines 190-211): in PULL mode (`!getImageCallback_`) wait for the provider,
request the elevation map, hand it to the engine and compute; in PUSH mode
only ask the engine to recompute from its current input. -/
def updateTraversability (ext : Ext) (cfg : Config) (env : PullEnv)
    (s : NodeState) : NodeState × List Effect × Bool :=
  if !s.getImageCallback then
    if !env.providerExists then (s, [], false)
    else
      let req := requestElevationMap cfg env
      match req.2 with
      | some m =>
        let r := (s.engine.setElevationMap m).computeTraversability ext.compute
        ({ s with engine := r.2 }, req.1 ++ [Effect.setElevation m, Effect.compute], r.1)
      | none => (s, req.1, false)
  else
    let r := s.engine.computeTraversability ext.compute
    ({ s with engine := r.2 }, [Effect.compute], r.1)

/-- The map built on the first streamed frame (lines 142-146): initialize
from the image's metadata, then add zero `upper_bound` and `lower_bound`
layers and an `uncertainty_range` layer equal to their difference. -/
def firstFrameMap (cfg : Config) (img : Image) : GridMap :=
  let m := initializeFromImage img cfg.imageResolution cfg.imagePositionX cfg.imagePositionY
  let m := m.add "upper_bound" 0
  let m := m.add "lower_bound" 0
  m.addData "uncertainty_range" (zipSub (m.get "upper_bound") (m.get "lower_bound"))

/-- Embedding of `TraversabilityEstimation::imageCallback` (lines 139-153):
on the first frame install `firstFrameMap` and set `getImageCallback_`; on
every frame write the `elevation` layer from the image and hand the whole
map to the engine. -/
def imageCallback (cfg : Config) (img : Image) (s : NodeState) :
    NodeState × List Effect :=
  let s :=
    if !s.getImageCallback then
      { s with imageGridMap := firstFrameMap cfg img, getImageCallback := true }
    else s
  let m := addLayerFromImage img "elevation" s.imageGridMap cfg.imageMinHeight cfg.imageMaxHeight
  ({ s with imageGridMap := m, engine := s.engine.setElevationMap m },
   [Effect.setElevation m])

/-- An event arriving at the node: a streamed frame on the image topic, or an
update trigger (timer tick or on-demand request) together with the external
outcomes it encounters. -/
inductive Event where
  | frame (img : Image)
  | trigger (env : PullEnv)

/-- Whether an event is a streamed frame. -/
def Event.isFrame : Event → Bool
  | .frame _ => true
  | .trigger _ => false

/-- One step of the node: dispatch the event to its callback. -/
def step (ext : Ext) (cfg : Config) (s : NodeState) : Event → NodeState × List Effect
  | .frame img => imageCallback cfg img s
  | .trigger env =>
    let r := updateTraversability ext cfg env s
    (r.1, r.2.1)

/-- Run the node over a sequence of interleaved events. -/
def run (ext : Ext) (cfg : Config) (s : NodeState) : List Event → NodeState
  | [] => s
  | e :: es => run ext cfg (step ext cfg s e).1 es

/-- A default-constructed `grid_map::GridMap`: empty geometry, no layers. -/
def emptyGridMap : GridMap :=
  { geometry :=
      { frameId := "", resolution := 0, sizeX := 0, sizeY := 0,
        lengthX := 0, lengthY := 0, positionX := 0, positionY := 0 }
    timestamp := 0
    layers := [] }

/-- The node's state right after the constructor: `getImageCallback_` is
false (PULL mode), the image grid map is default-constructed, the engine holds
no input and is not initialized. -/
def initState (mapFrameId : String) : NodeState :=
  { getImageCallback := false
    imageGridMap := emptyGridMap
    engine :=
      { elevationInput := none
        traversability := emptyGridMap
        initialized := false
        mapFrameId := mapFrameId } }

/-- ROS service semantics: a handler that returns `false` reports an explicit
failure to the caller and its response object is not delivered, so the caller
receives no (partial) data.  `callerView` maps a handler outcome
`(returnValue, response)` to what the caller observes. -/
def callerView {α : Type} (r : Bool × α) : Option α :=
  if r.1 then some r.2 else none

/-- A footprint path: the candidate poses of a `traversability_msgs::FootprintPath`. -/
structure FootprintPath where
  poses : List (ℚ × ℚ)
deriving DecidableEq, Repr

/-- A `traversability_msgs::TraversabilityResult`. -/
structure TraversabilityResult where
  isSafe : Bool
  traversability : ℚ
deriving DecidableEq, Repr

/-- Loop body of `checkFootprintPath` (lines 288-293): check each path in
order via the engine (`checkOne`; `none` models a failed
`traversabilityMap_.checkFootprintPath`), appending one result per path to the
response and aborting the whole batch on the first failure. -/
def checkLoop (checkOne : FootprintPath → Option TraversabilityResult) :
    List FootprintPath → List TraversabilityResult → Bool × List TraversabilityResult
  | [], acc => (true, acc)
  | p :: ps, acc =>
    match checkOne p with
    | none => (false, acc)
    | some r => checkLoop checkOne ps (acc ++ [r])

/-- Embedding of `TraversabilityEstimation::checkFootprintPath`
(lines 276-296): reject an empty batch, otherwise run the all-or-nothing
check loop. -/
def checkFootprintPath (checkOne : FootprintPath → Option TraversabilityResult)
    (paths : List FootprintPath) : Bool × List TraversabilityResult :=
  if paths.length == 0 then (false, [])
  else checkLoop checkOne paths []

/-- The request fields of `grid_map_msgs::GetGridMap` consumed by
`getTraversabilityMap`. -/
structure GetGridMapRequest where
  positionX : ℚ
  positionY : ℚ
  lengthX : ℚ
  lengthY : ℚ
  layers : List String
deriving DecidableEq, Repr

/-- Model of `grid_map::GridMapRosConverter::toMessage(map, msg)`: the message
carries all layers of the map. -/
def toMessageAll (m : GridMap) : GridMap := m

/-- Model of `grid_map::GridMapRosConverter::toMessage(map, layers, msg)`:
the message carries exactly the named layers, in request order (an absent
layer is a caller error in the C++; it contributes nothing here). -/
def toMessageLayers (m : GridMap) (ls : List String) : GridMap :=
  { m with layers :=
      ls.filterMap (fun n => if m.hasLayer n then some (n, m.get n) else none) }

/-- Embedding of `TraversabilityEstimation::getTraversabilityMap`
(lines 298-319): extract the requested submap from the engine's current
payload (`getSubmap` models `grid_map::GridMap::getSubmap`, whose success flag
is false when the requested region does not intersect the map or is not
representable), serialize either all layers or the requested subset, and
return the extraction's success flag. -/
def getTraversabilityMap
    (getSubmap : GridMap → ℚ × ℚ → ℚ × ℚ → GridMap × Bool)
    (e : EngineState) (req : GetGridMapRequest) : Bool × GridMap :=
  let map := e.traversability
  let sub := getSubmap map (req.positionX, req.positionY) (req.lengthX, req.lengthY)
  if req.layers.isEmpty then (sub.2, toMessageAll sub.1)
  else (sub.2, toMessageLayers sub.1 req.layers)

/-- A quaternion as in `geometry_msgs::Quaternion` (zero-initialized by
default in ROS messages). -/
structure Quaternion where
  x : ℚ
  y : ℚ
  z : ℚ
  w : ℚ
deriving DecidableEq, Repr

/-- A `geometry_msgs::Pose`. -/
structure Pose where
  positionX : ℚ
  positionY : ℚ
  positionZ : ℚ
  orientation : Quaternion
deriving DecidableEq, Repr

/-- A default-constructed `geometry_msgs::Pose`: every field zero. -/
def defaultPose : Pose :=
  { positionX := 0, positionY := 0, positionZ := 0,
    orientation := { x := 0, y := 0, z := 0, w := 0 } }

/-- The `grid_map_msgs::GetGridMapInfo` response fields filled by
`updateServiceCallback`. -/
structure GridMapInfo where
  frameId : String
  resolution : ℚ
  lengthX : ℚ
  lengthY : ℚ
  pose : Pose
deriving DecidableEq, Repr

/-- The info response built in lines 175-185: frame id from the engine,
resolution, lengths and position from the traversability payload, and a
default pose whose position x/y are overwritten and whose orientation w is
set to 1. -/
def mapInfoResponse (e : EngineState) : GridMapInfo :=
  let traversabilityMap := e.traversability
  { frameId := e.mapFrameId
    resolution := traversabilityMap.geometry.resolution
    lengthX := traversabilityMap.geometry.lengthX
    lengthY := traversabilityMap.geometry.lengthY
    pose :=
      { defaultPose with
          positionX := traversabilityMap.geometry.positionX
          positionY := traversabilityMap.geometry.positionY
          orientation := { defaultPose.orientation with w := 1 } } }

/-- Embedding of `TraversabilityEstimation::updateServiceCallback`
(lines 160-188): when the update duration is zero (periodic updates disabled)
first run `updateTraversability` and fail the whole operation if it fails;
then wait until the engine is initialized and answer with the map info.  The
C++ wait is an unbounded poll of `traversabilityMapInitialized()`; in this
sequential model readiness cannot change during the wait, so a never-ready
engine (a wait that never returns) is modelled as no response (`none`). -/
def updateServiceCallback (ext : Ext) (cfg : Config) (env : PullEnv)
    (updateDurationIsZero : Bool) (s : NodeState) :
    NodeState × List Effect × Option GridMapInfo :=
  if updateDurationIsZero then
    let r := updateTraversability ext cfg env s
    if !r.2.2 then (r.1, r.2.1, none)
    else if r.1.engine.initialized then (r.1, r.2.1, some (mapInfoResponse r.1.engine))
    else (r.1, r.2.1, none)
  else
    if s.engine.initialized then (s, [], some (mapInfoResponse s.engine))
    else (s, [], none)

/-- The layer-completion loop of `loadElevationMap` (lines 115-120), over an
arbitrary layer list: add each layer missing from the map with value zero. -/
def addMissingLayersAux : List String → GridMap → GridMap
  | [], m => m
  | l :: ls, m => addMissingLayersAux ls (if m.hasLayer l then m else m.add l 0)

/-- The layer-completion loop of `loadElevationMap` over `elevationMapLayers_`. -/
def addMissingLayers (m : GridMap) : GridMap :=
  addMissingLayersAux elevationMapLayers m

/-- Embedding of `TraversabilityEstimation::loadElevationMap`
(lines 106-137): load a persisted map (`loadResult` models
`loadFromBag`; `none` is a read failure), add each missing required layer with
value zero, timestamp the map, hand it to the engine and compute; a compute
failure is an overall failure. -/
def loadElevationMap (compute : Option GridMap → Option GridMap)
    (loadResult : Option GridMap) (now : Nat) (e : EngineState) :
    Bool × EngineState :=
  match loadResult with
  | none => (false, e)
  | some map =>
    let map := addMissingLayers map
    let map := map.setTimestamp now
    (e.setElevationMap map).computeTraversability compute

/-! Concrete instances used to evaluate the theorems on explicit inputs. -/

/-- Concrete engine behavior: compute succeeds exactly when an elevation
input is present, and takes it as the traversability payload. -/
def extW : Ext := { compute := fun i => i }

/-- Concrete configuration. -/
def cfgW : Config :=
  { imageResolution := 1/20
    imageMinHeight := 0
    imageMaxHeight := 1
    imagePositionX := 0
    imagePositionY := 0
    mapLengthX := 5
    mapLengthY := 5 }

/-- Concrete streamed frame. -/
def imgW : Image :=
  { frameId := "camera", rows := 2, cols := 2, pixels := [0, 1, 0, 1] }

/-- Concrete elevation map as served by the remote provider. -/
def mapW : GridMap :=
  { geometry :=
      { frameId := "map", resolution := 1/10, sizeX := 3, sizeY := 3,
        lengthX := 3/10, lengthY := 3/10, positionX := 0, positionY := 0 }
    timestamp := 0
    layers :=
      [("elevation", [1, 2, 3]), ("upper_bound", [1, 1, 1]), ("lower_bound", [0, 0, 0])] }

/-- Concrete pull environment: provider reachable, transform resolved,
service answering with `mapW`. -/
def envW : PullEnv :=
  { providerExists := true, transformedPoint := some (1, 2), serviceResponse := some mapW }

/-- Concrete pull environment in which the tf lookup throws. -/
def envTfFailW : PullEnv :=
  { providerExists := true, transformedPoint := none, serviceResponse := some mapW }

/-- A concrete node state in PUSH mode: the state reached after the first
streamed frame. -/
def sPushW : NodeState := (imageCallback cfgW imgW (initState "map")).1

/-- Concrete per-path check behavior of the engine: fails exactly on a path
with no poses. -/
def checkOneW : FootprintPath → Option TraversabilityResult :=
  fun p =>
    if p.poses.length == 0 then none
    else some { isSafe := true, traversability := 1 }

/-- Concrete batch of paths on which every check succeeds. -/
def pathsW : List FootprintPath :=
  [{ poses := [(0, 0)] }, { poses := [(1, 1), (2, 2)] }]

/-- Concrete batch of paths whose second path fails the check. -/
def pathsFailW : List FootprintPath :=
  [{ poses := [(0, 0)] }, { poses := [] }]

/-- Concrete engine state holding `mapW` as its traversability payload. -/
def engineW : EngineState :=
  { elevationInput := none, traversability := mapW, initialized := true,
    mapFrameId := "map" }

/-- Concrete submap extraction that succeeds with the whole map. -/
def getSubmapOkW : GridMap → ℚ × ℚ → ℚ × ℚ → GridMap × Bool :=
  fun m _ _ => (m, true)

/-- Concrete submap extraction that fails (region outside the map). -/
def getSubmapFailW : GridMap → ℚ × ℚ → ℚ × ℚ → GridMap × Bool :=
  fun m _ _ => (m, false)

/-- Concrete submap request with no layer subset. -/
def reqAllW : GetGridMapRequest :=
  { positionX := 0, positionY := 0, lengthX := 1, lengthY := 1, layers := [] }

/-- Concrete submap request naming only the elevation layer. -/
def reqElevW : GetGridMapRequest :=
  { positionX := 0, positionY := 0, lengthX := 1, lengthY := 1, layers := ["elevation"] }

/-- Concrete persisted elevation map missing the bound layers. -/
def loadMapW : GridMap :=
  { geometry :=
      { frameId := "map", resolution := 1/10, sizeX := 2, sizeY := 1,
        lengthX := 1/5, lengthY := 1/10, positionX := 0, positionY := 0 }
    timestamp := 0
    layers := [("elevation", [1, 2])] }

/-! Helper lemmas about the grid-map layer operations. -/

namespace GridMap

theorem addData_geometry (m : GridMap) (n : String) (d : List ℚ) :
    (m.addData n d).geometry = m.geometry := by
  unfold addData; split <;> rfl

theorem addData_timestamp (m : GridMap) (n : String) (d : List ℚ) :
    (m.addData n d).timestamp = m.timestamp := by
  unfold addData; split <;> rfl

theorem add_geometry (m : GridMap) (n : String) (v : ℚ) :
    (m.add n v).geometry = m.geometry :=
  addData_geometry ..

theorem setTimestamp_geometry (m : GridMap) (t : Nat) :
    (m.setTimestamp t).geometry = m.geometry := rfl

theorem setTimestamp_layers (m : GridMap) (t : Nat) :
    (m.setTimestamp t).layers = m.layers := rfl

theorem setTimestamp_get (m : GridMap) (t : Nat) (n : String) :
    (m.setTimestamp t).get n = m.get n := rfl

theorem setTimestamp_hasLayer (m : GridMap) (t : Nat) (n : String) :
    (m.setTimestamp t).hasLayer n = m.hasLayer n := rfl

theorem addData_of_hasLayer (m : GridMap) (n : String) (d : List ℚ)
    (h : m.hasLayer n = true) :
    m.addData n d
      = { m with layers := m.layers.map (fun l => if l.1 = n then (n, d) else l) } := by
  simp only [addData, h, if_true]

theorem addData_of_not_hasLayer (m : GridMap) (n : String) (d : List ℚ)
    (h : m.hasLayer n = false) :
    m.addData n d = { m with layers := m.layers ++ [(n, d)] } := by
  simp only [addData, h, Bool.false_eq_true, if_false]

theorem any_replace (L : List (String × List ℚ)) (n n' : String) (d : List ℚ) :
    (L.map (fun l => if l.1 = n then (n, d) else l)).any (fun l => l.1 = n')
      = L.any (fun l => l.1 = n') := by
  induction L with
  | nil => rfl
  | cons a L ih =>
    by_cases ha : a.1 = n
    · simp only [List.map_cons, List.any_cons, ih, if_pos ha]
      congr 1
      simp [ha]
    · simp only [List.map_cons, List.any_cons, ih, if_neg ha]

theorem getAux_replace_self (L : List (String × List ℚ)) (n : String) (d : List ℚ)
    (h : L.any (fun l => l.1 = n) = true) :
    getAux n (L.map (fun l => if l.1 = n then (n, d) else l)) = d := by
  induction L with
  | nil => simp at h
  | cons a L ih =>
    by_cases ha : a.1 = n
    · simp [getAux, ha]
    · have h' : L.any (fun l => l.1 = n) = true := by
        simpa [List.any_cons, ha] using h
      simp [getAux, ha, ih h']

theorem getAux_replace_ne (L : List (String × List ℚ)) (n n' : String) (d : List ℚ)
    (hne : n ≠ n') :
    getAux n' (L.map (fun l => if l.1 = n then (n, d) else l)) = getAux n' L := by
  induction L with
  | nil => rfl
  | cons a L ih =>
    by_cases ha : a.1 = n
    · have h1 : ¬((n, d).1 = n') := hne
      have h2 : ¬(a.1 = n') := by rw [ha]; exact hne
      simp [getAux, ha, h1, h2, ih]
    · by_cases hb : a.1 = n'
      · have hns : ¬(n' = n) := fun hc => hne hc.symm
        simp [getAux, ha, hb, hns]
      · simp [getAux, ha, hb, ih]

theorem getAux_append_single_self (L : List (String × List ℚ)) (n : String) (d : List ℚ)
    (h : L.any (fun l => l.1 = n) = false) :
    getAux n (L ++ [(n, d)]) = d := by
  induction L with
  | nil => simp [getAux]
  | cons a L ih =>
    have ha : ¬(a.1 = n) := by
      intro hc
      simp [List.any_cons, hc] at h
    have h' : L.any (fun l => l.1 = n) = false := by
      simpa [List.any_cons, ha] using h
    simp [getAux, ha, ih h']

theorem getAux_append_single_ne (L : List (String × List ℚ)) (n n' : String) (d : List ℚ)
    (hne : n ≠ n') :
    getAux n' (L ++ [(n, d)]) = getAux n' L := by
  induction L with
  | nil => simp [getAux, hne]
  | cons a L ih =>
    by_cases hb : a.1 = n'
    · simp [getAux, hb]
    · simp [getAux, hb, ih]

theorem map_fst_replace (L : List (String × List ℚ)) (n : String) (d : List ℚ) :
    (L.map (fun l => if l.1 = n then (n, d) else l)).map Prod.fst = L.map Prod.fst := by
  induction L with
  | nil => rfl
  | cons a L ih =>
    by_cases ha : a.1 = n
    · simp [ha, ih]
    · simp [ha, ih]

theorem hasLayer_addData (m : GridMap) (n : String) (d : List ℚ) (n' : String) :
    (m.addData n d).hasLayer n' = (m.hasLayer n' || decide (n = n')) := by
  by_cases h : m.hasLayer n
  · rw [addData_of_hasLayer m n d h]
    show (m.layers.map (fun l => if l.1 = n then (n, d) else l)).any (fun l => l.1 = n')
      = (m.hasLayer n' || decide (n = n'))
    rw [any_replace]
    by_cases hnn : n = n'
    · subst hnn
      have hh : m.layers.any (fun l => l.1 = n) = true := h
      simp [hasLayer, hh]
    · simp [hasLayer, hnn]
  · rw [addData_of_not_hasLayer m n d (by simpa using h)]
    show (m.layers ++ [(n, d)]).any (fun l => l.1 = n') = (m.hasLayer n' || decide (n = n'))
    rw [List.any_append]
    simp [hasLayer]

theorem hasLayer_add (m : GridMap) (n : String) (v : ℚ) (n' : String) :
    (m.add n v).hasLayer n' = (m.hasLayer n' || decide (n = n')) :=
  hasLayer_addData ..

theorem get_addData_self (m : GridMap) (n : String) (d : List ℚ) :
    (m.addData n d).get n = d := by
  by_cases h : m.hasLayer n
  · rw [addData_of_hasLayer m n d h]
    exact getAux_replace_self m.layers n d h
  · rw [addData_of_not_hasLayer m n d (by simpa using h)]
    exact getAux_append_single_self m.layers n d
      (by simp only [Bool.not_eq_true] at h; exact h)

theorem get_addData_ne (m : GridMap) (n : String) (d : List ℚ) (n' : String)
    (hne : n ≠ n') :
    (m.addData n d).get n' = m.get n' := by
  by_cases h : m.hasLayer n
  · rw [addData_of_hasLayer m n d h]
    exact getAux_replace_ne m.layers n n' d hne
  · rw [addData_of_not_hasLayer m n d (by simpa using h)]
    exact getAux_append_single_ne m.layers n n' d hne

theorem get_add_self (m : GridMap) (n : String) (v : ℚ) :
    (m.add n v).get n = List.replicate (m.geometry.sizeX * m.geometry.sizeY) v :=
  get_addData_self ..

theorem get_add_ne (m : GridMap) (n : String) (v : ℚ) (n' : String) (hne : n ≠ n') :
    (m.add n v).get n' = m.get n' :=
  get_addData_ne _ _ _ _ hne

theorem layerNames_addData_of_hasLayer (m : GridMap) (n : String) (d : List ℚ)
    (h : m.hasLayer n = true) :
    (m.addData n d).layers.map Prod.fst = m.layers.map Prod.fst := by
  rw [addData_of_hasLayer m n d h]
  exact map_fst_replace m.layers n d

end GridMap

/-! Helper lemmas about the node's step function. -/

theorem computeTraversability_elevationInput (f : Option GridMap → Option GridMap)
    (e : EngineState) :
    (e.computeTraversability f).2.elevationInput = e.elevationInput := by
  unfold EngineState.computeTraversability
  cases f e.elevationInput <;> rfl

theorem updateTraversability_getImageCallback (ext : Ext) (cfg : Config) (env : PullEnv)
    (s : NodeState) :
    (updateTraversability ext cfg env s).1.getImageCallback = s.getImageCallback := by
  unfold updateTraversability
  by_cases h : s.getImageCallback
  · simp [h]
  · cases hreq : (requestElevationMap cfg env).2 <;>
      by_cases hp : env.providerExists <;> simp [h, hp, hreq]

theorem updateTraversability_imageGridMap (ext : Ext) (cfg : Config) (env : PullEnv)
    (s : NodeState) :
    (updateTraversability ext cfg env s).1.imageGridMap = s.imageGridMap := by
  unfold updateTraversability
  by_cases h : s.getImageCallback
  · simp [h]
  · cases hreq : (requestElevationMap cfg env).2 <;>
      by_cases hp : env.providerExists <;> simp [h, hp, hreq]

theorem imageCallback_getImageCallback (cfg : Config) (img : Image) (s : NodeState) :
    (imageCallback cfg img s).1.getImageCallback = true := by
  unfold imageCallback
  by_cases h : s.getImageCallback <;> simp [h]

theorem step_getImageCallback (ext : Ext) (cfg : Config) (s : NodeState) (e : Event) :
    (step ext cfg s e).1.getImageCallback = (s.getImageCallback || e.isFrame) := by
  cases e with
  | frame img =>
    simp [step, imageCallback_getImageCallback, Event.isFrame]
  | trigger env =>
    simp [step, updateTraversability_getImageCallback, Event.isFrame]

theorem run_getImageCallback (ext : Ext) (cfg : Config) (es : List Event) (s : NodeState) :
    (run ext cfg s es).getImageCallback = (s.getImageCallback || es.any Event.isFrame) := by
  induction es generalizing s with
  | nil => simp [run]
  | cons e es ih =>
    show (run ext cfg (step ext cfg s e).1 es).getImageCallback = _
    rw [ih, step_getImageCallback]
    simp [List.any_cons, Bool.or_assoc]

/-- **C1.** The acquisition mode starts as PULL (`getImageCallback_ = false`)
and is PUSH after a run exactly when some streamed frame arrived — so it
switches on the first frame and never reverts, for every interleaving of
triggers and frames; and once in PUSH mode, a trigger performs no pull
request and no elevation hand-off, only the engine's recompute from its
current (most recently pushed) input. -/
theorem acquisitionMode_pull_to_push_once (ext : Ext) (cfg : Config) (fid : String)
    (es : List Event) :
    ((run ext cfg (initState fid) es).getImageCallback = es.any Event.isFrame)
    ∧ (∀ s : NodeState, ∀ env : PullEnv, s.getImageCallback = true →
        (step ext cfg s (.trigger env)).2 = [Effect.compute]
        ∧ (step ext cfg s (.trigger env)).1
            = { s with engine := (s.engine.computeTraversability ext.compute).2 }
        ∧ (step ext cfg s (.trigger env)).1.engine.elevationInput
            = s.engine.elevationInput) := by
  constructor
  · rw [run_getImageCallback]
    simp [initState]
  · intro s env h
    have hstep : step ext cfg s (.trigger env)
        = ({ s with engine := (s.engine.computeTraversability ext.compute).2 },
            [Effect.compute]) := by
      simp [step, updateTraversability, h]
    refine ⟨by rw [hstep], by rw [hstep], ?_⟩
    rw [hstep]
    exact computeTraversability_elevationInput ext.compute s.engine

/-- Witness for C1 at concrete inputs: one frame flips the mode to PUSH, and
a trigger from the concrete PUSH state emits only a compute effect. -/
theorem acquisitionMode_pull_to_push_once_witness :
    (run extW cfgW (initState "map") [Event.frame imgW, Event.trigger envW]).getImageCallback
      = true
    ∧ (step extW cfgW sPushW (.trigger envW)).2 = [Effect.compute] := by
  have h := acquisitionMode_pull_to_push_once extW cfgW "map"
    [Event.frame imgW, Event.trigger envW]
  have hpush : sPushW.getImageCallback = true := by decide
  exact ⟨by rw [h.1]; rfl, (h.2 sPushW envW hpush).1⟩

theorem addLayerFromImage_geometry (img : Image) (n : String) (m : GridMap)
    (a b : ℚ) :
    (addLayerFromImage img n m a b).geometry = m.geometry :=
  GridMap.addData_geometry ..

theorem imageCallback_push (cfg : Config) (img : Image) (s : NodeState)
    (h : s.getImageCallback = true) :
    imageCallback cfg img s
      = ({ s with
            imageGridMap :=
              addLayerFromImage img "elevation" s.imageGridMap
                cfg.imageMinHeight cfg.imageMaxHeight
            engine :=
              s.engine.setElevationMap
                (addLayerFromImage img "elevation" s.imageGridMap
                  cfg.imageMinHeight cfg.imageMaxHeight) },
          [Effect.setElevation
            (addLayerFromImage img "elevation" s.imageGridMap
              cfg.imageMinHeight cfg.imageMaxHeight)]) := by
  simp [imageCallback, h]

theorem imageCallback_first (cfg : Config) (img : Image) (s : NodeState)
    (h : s.getImageCallback = false) :
    imageCallback cfg img s
      = ({ s with
            getImageCallback := true
            imageGridMap :=
              addLayerFromImage img "elevation" (firstFrameMap cfg img)
                cfg.imageMinHeight cfg.imageMaxHeight
            engine :=
              s.engine.setElevationMap
                (addLayerFromImage img "elevation" (firstFrameMap cfg img)
                  cfg.imageMinHeight cfg.imageMaxHeight) },
          [Effect.setElevation
            (addLayerFromImage img "elevation" (firstFrameMap cfg img)
              cfg.imageMinHeight cfg.imageMaxHeight)]) := by
  simp [imageCallback, h]

theorem firstFrameMap_eq (cfg : Config) (img : Image) :
    firstFrameMap cfg img
      = { geometry :=
            (initializeFromImage img cfg.imageResolution
              cfg.imagePositionX cfg.imagePositionY).geometry
          timestamp := 0
          layers :=
            [("upper_bound", List.replicate (img.rows * img.cols) 0),
             ("lower_bound", List.replicate (img.rows * img.cols) 0),
             ("uncertainty_range",
                zipSub (List.replicate (img.rows * img.cols) 0)
                  (List.replicate (img.rows * img.cols) 0))] } := by
  rfl

theorem run_append (ext : Ext) (cfg : Config) (es1 es2 : List Event) (s : NodeState) :
    run ext cfg s (es1 ++ es2) = run ext cfg (run ext cfg s es1) es2 := by
  induction es1 generalizing s with
  | nil => rfl
  | cons e es ih =>
    show run ext cfg (step ext cfg s e).1 (es ++ es2) = _
    rw [ih]
    rfl

theorem step_push_geometry (ext : Ext) (cfg : Config) (s : NodeState) (e : Event)
    (h : s.getImageCallback = true) :
    (step ext cfg s e).1.imageGridMap.geometry = s.imageGridMap.geometry := by
  cases e with
  | frame img =>
    show (imageCallback cfg img s).1.imageGridMap.geometry = _
    rw [imageCallback_push cfg img s h]
    exact addLayerFromImage_geometry ..
  | trigger env =>
    show (updateTraversability ext cfg env s).1.imageGridMap.geometry = _
    rw [updateTraversability_imageGridMap]

theorem run_push_geometry (ext : Ext) (cfg : Config) (es : List Event) (s : NodeState)
    (h : s.getImageCallback = true) :
    (run ext cfg s es).imageGridMap.geometry = s.imageGridMap.geometry := by
  induction es generalizing s with
  | nil => rfl
  | cons e es ih =>
    show (run ext cfg (step ext cfg s e).1 es).imageGridMap.geometry = _
    rw [ih _ (by rw [step_getImageCallback]; simp [h])]
    exact step_push_geometry ext cfg s e h

theorem firstFrameMap_get_upper (cfg : Config) (img : Image) :
    (firstFrameMap cfg img).get "upper_bound" = List.replicate (img.rows * img.cols) 0 := by
  rw [firstFrameMap_eq]; rfl

theorem firstFrameMap_get_lower (cfg : Config) (img : Image) :
    (firstFrameMap cfg img).get "lower_bound" = List.replicate (img.rows * img.cols) 0 := by
  rw [firstFrameMap_eq]; rfl

theorem firstFrameMap_get_uncertainty (cfg : Config) (img : Image) :
    (firstFrameMap cfg img).get "uncertainty_range"
      = zipSub (List.replicate (img.rows * img.cols) 0)
          (List.replicate (img.rows * img.cols) 0) := by
  rw [firstFrameMap_eq]; rfl

/-- Counterexample to C2 as stated: a streamed frame arriving in PUSH mode
(the concrete second frame after `sPushW`) hands the payload to the engine
but does not invoke the engine's compute step — the engine performs no
traversability computation and is still uninitialized afterwards, so
traversability is not computed at sensor-stream rate. -/
theorem push_frame_no_stream_rate_compute_cex :
    Effect.compute ∉ (imageCallback cfgW imgW sPushW).2
    ∧ (imageCallback cfgW imgW sPushW).1.engine.traversability
        = sPushW.engine.traversability
    ∧ (imageCallback cfgW imgW sPushW).1.engine.initialized = false := by
  decide

/-- **C2 (amended).** In PUSH mode the grid geometry is fixed once, on the
first streamed frame, from that frame's metadata (with zero-initialized bound
layers and an uncertainty layer equal to upper minus lower bound); every
subsequent frame updates only the elevation layer; and on every frame the
accumulated payload is handed to the engine — but no compute is invoked by
the frame handler, so traversability is recomputed only via
`updateTraversability`, not at sensor-stream rate. -/
theorem push_mode_frame_accumulation (ext : Ext) (cfg : Config) (fid : String) :
    (∀ es1 : List Event, ∀ img0 : Image, ∀ es2 : List Event,
      (∀ e ∈ es1, e.isFrame = false) →
      (run ext cfg (initState fid) (es1 ++ Event.frame img0 :: es2)).imageGridMap.geometry
        = (initializeFromImage img0 cfg.imageResolution
            cfg.imagePositionX cfg.imagePositionY).geometry)
    ∧ (∀ img : Image, ∀ s : NodeState, s.getImageCallback = false →
        (imageCallback cfg img s).1.imageGridMap.get "upper_bound"
            = List.replicate (img.rows * img.cols) 0
        ∧ (imageCallback cfg img s).1.imageGridMap.get "lower_bound"
            = List.replicate (img.rows * img.cols) 0
        ∧ (imageCallback cfg img s).1.imageGridMap.get "uncertainty_range"
            = zipSub ((imageCallback cfg img s).1.imageGridMap.get "upper_bound")
                ((imageCallback cfg img s).1.imageGridMap.get "lower_bound")
        ∧ (imageCallback cfg img s).1.imageGridMap.get "elevation"
            = img.pixels.map
                (fun p => cfg.imageMinHeight + p * (cfg.imageMaxHeight - cfg.imageMinHeight)))
    ∧ (∀ img : Image, ∀ s : NodeState, s.getImageCallback = true →
        (imageCallback cfg img s).1.imageGridMap.geometry = s.imageGridMap.geometry
        ∧ (∀ n : String, n ≠ "elevation" →
            (imageCallback cfg img s).1.imageGridMap.get n = s.imageGridMap.get n
            ∧ (imageCallback cfg img s).1.imageGridMap.hasLayer n
                = s.imageGridMap.hasLayer n)
        ∧ (s.imageGridMap.hasLayer "elevation" = true →
            (imageCallback cfg img s).1.imageGridMap.layers.map Prod.fst
              = s.imageGridMap.layers.map Prod.fst)
        ∧ (imageCallback cfg img s).1.imageGridMap.get "elevation"
            = img.pixels.map
                (fun p => cfg.imageMinHeight + p * (cfg.imageMaxHeight - cfg.imageMinHeight)))
    ∧ (∀ img : Image, ∀ s : NodeState,
        (imageCallback cfg img s).2
          = [Effect.setElevation (imageCallback cfg img s).1.imageGridMap]
        ∧ (imageCallback cfg img s).1.engine.elevationInput
            = some (imageCallback cfg img s).1.imageGridMap
        ∧ Effect.compute ∉ (imageCallback cfg img s).2) := by
  refine ⟨?geom, ?first, ?subsequent, ?handoff⟩
  case geom =>
    intro es1 img0 es2 hnf
    rw [run_append]
    have h1 : (run ext cfg (initState fid) es1).getImageCallback = false := by
      rw [run_getImageCallback]
      simp only [initState, Bool.false_or]
      simp only [List.any_eq_false]
      intro e he
      simp [hnf e he]
    show (run ext cfg
        (step ext cfg (run ext cfg (initState fid) es1) (.frame img0)).1 es2).imageGridMap.geometry = _
    rw [run_push_geometry _ _ _ _ (by rw [step_getImageCallback]; simp [Event.isFrame])]
    show (imageCallback cfg img0 (run ext cfg (initState fid) es1)).1.imageGridMap.geometry = _
    rw [imageCallback_first _ _ _ h1]
    show (addLayerFromImage img0 "elevation" (firstFrameMap cfg img0)
        cfg.imageMinHeight cfg.imageMaxHeight).geometry = _
    rw [addLayerFromImage_geometry, firstFrameMap_eq]
  case first =>
    intro img s h
    rw [imageCallback_first _ _ _ h]
    have hub : ("elevation" : String) ≠ "upper_bound" := by decide
    have hlb : ("elevation" : String) ≠ "lower_bound" := by decide
    have hun : ("elevation" : String) ≠ "uncertainty_range" := by decide
    refine ⟨?_, ?_, ?_, ?_⟩
    · show (addLayerFromImage img "elevation" (firstFrameMap cfg img)
          cfg.imageMinHeight cfg.imageMaxHeight).get "upper_bound" = _
      rw [show addLayerFromImage img "elevation" (firstFrameMap cfg img)
            cfg.imageMinHeight cfg.imageMaxHeight
          = (firstFrameMap cfg img).addData "elevation"
              (img.pixels.map (fun p => cfg.imageMinHeight + p * (cfg.imageMaxHeight - cfg.imageMinHeight)))
          from rfl]
      rw [GridMap.get_addData_ne _ _ _ _ hub]
      exact firstFrameMap_get_upper cfg img
    · show (addLayerFromImage img "elevation" (firstFrameMap cfg img)
          cfg.imageMinHeight cfg.imageMaxHeight).get "lower_bound" = _
      rw [show addLayerFromImage img "elevation" (firstFrameMap cfg img)
            cfg.imageMinHeight cfg.imageMaxHeight
          = (firstFrameMap cfg img).addData "elevation"
              (img.pixels.map (fun p => cfg.imageMinHeight + p * (cfg.imageMaxHeight - cfg.imageMinHeight)))
          from rfl]
      rw [GridMap.get_addData_ne _ _ _ _ hlb]
      exact firstFrameMap_get_lower cfg img
    · show (addLayerFromImage img "elevation" (firstFrameMap cfg img)
          cfg.imageMinHeight cfg.imageMaxHeight).get "uncertainty_range" = _
      rw [show addLayerFromImage img "elevation" (firstFrameMap cfg img)
            cfg.imageMinHeight cfg.imageMaxHeight
          = (firstFrameMap cfg img).addData "elevation"
              (img.pixels.map (fun p => cfg.imageMinHeight + p * (cfg.imageMaxHeight - cfg.imageMinHeight)))
          from rfl]
      rw [GridMap.get_addData_ne _ _ _ _ hun,
          GridMap.get_addData_ne _ _ _ _ hub,
          GridMap.get_addData_ne _ _ _ _ hlb,
          firstFrameMap_get_uncertainty, firstFrameMap_get_upper, firstFrameMap_get_lower]
    · show (addLayerFromImage img "elevation" (firstFrameMap cfg img)
          cfg.imageMinHeight cfg.imageMaxHeight).get "elevation" = _
      exact GridMap.get_addData_self ..
  case subsequent =>
    intro img s h
    rw [imageCallback_push _ _ _ h]
    refine ⟨addLayerFromImage_geometry .., ?_, ?_, GridMap.get_addData_self ..⟩
    · intro n hn
      constructor
      · exact GridMap.get_addData_ne _ _ _ _ (fun hc => hn hc.symm)
      · rw [show addLayerFromImage img "elevation" s.imageGridMap
              cfg.imageMinHeight cfg.imageMaxHeight
            = s.imageGridMap.addData "elevation"
                (img.pixels.map (fun p => cfg.imageMinHeight + p * (cfg.imageMaxHeight - cfg.imageMinHeight)))
            from rfl]
        rw [GridMap.hasLayer_addData]
        have hf : ¬(("elevation" : String) = n) := fun hc => hn hc.symm
        simp [hf]
    · intro helev
      exact GridMap.layerNames_addData_of_hasLayer _ _ _ helev
  case handoff =>
    intro img s
    by_cases h : s.getImageCallback
    · rw [imageCallback_push _ _ _ h]
      refine ⟨rfl, rfl, ?_⟩
      simp
    · rw [imageCallback_first _ _ _ (by simpa using h)]
      refine ⟨rfl, rfl, ?_⟩
      simp

/-- Witness for the amended C2 at concrete inputs. -/
theorem push_mode_frame_accumulation_witness :
    (run extW cfgW (initState "map") [Event.frame imgW]).imageGridMap.geometry
      = (initializeFromImage imgW cfgW.imageResolution
          cfgW.imagePositionX cfgW.imagePositionY).geometry
    ∧ (imageCallback cfgW imgW sPushW).1.imageGridMap.geometry
        = sPushW.imageGridMap.geometry
    ∧ (imageCallback cfgW imgW sPushW).1.imageGridMap.get "upper_bound"
        = sPushW.imageGridMap.get "upper_bound" := by
  have h := push_mode_frame_accumulation extW cfgW "map"
  have hpush : sPushW.getImageCallback = true := by decide
  have hne : ("upper_bound" : String) ≠ "elevation" := by decide
  exact ⟨h.1 [] imgW [] (by simp),
    (h.2.2.1 imgW sPushW hpush).1,
    ((h.2.2.1 imgW sPushW hpush).2.1 "upper_bound" hne).1⟩

/-! Lemmas about the footprint-path batch check. -/

theorem checkLoop_all_some (checkOne : FootprintPath → Option TraversabilityResult)
    (ps : List FootprintPath) (acc : List TraversabilityResult)
    (h : ∀ p ∈ ps, (checkOne p).isSome = true) :
    checkLoop checkOne ps acc = (true, acc ++ ps.filterMap checkOne) := by
  induction ps generalizing acc with
  | nil => simp [checkLoop]
  | cons p ps ih =>
    obtain ⟨r, hr⟩ := Option.isSome_iff_exists.mp (h p (by simp))
    rw [show checkLoop checkOne (p :: ps) acc
        = (match checkOne p with
           | none => (false, acc)
           | some r => checkLoop checkOne ps (acc ++ [r])) from rfl]
    rw [hr]
    show checkLoop checkOne ps (acc ++ [r]) = _
    rw [ih _ (fun q hq => h q (by simp [hq]))]
    simp [List.filterMap_cons, hr]

theorem checkLoop_fail (checkOne : FootprintPath → Option TraversabilityResult)
    (ps : List FootprintPath) (acc : List TraversabilityResult)
    (h : ∃ p ∈ ps, checkOne p = none) :
    (checkLoop checkOne ps acc).1 = false := by
  induction ps generalizing acc with
  | nil => simp at h
  | cons q ps ih =>
    cases hq : checkOne q with
    | none => simp [checkLoop, hq]
    | some r =>
      obtain ⟨p, hp, hnone⟩ := h
      rcases List.mem_cons.mp hp with rfl | hp
      · rw [hnone] at hq; cases hq
      · rw [show checkLoop checkOne (q :: ps) acc
            = (match checkOne q with
               | none => (false, acc)
               | some r => checkLoop checkOne ps (acc ++ [r])) from rfl, hq]
        exact ih _ ⟨_, hp, hnone⟩

theorem filterMap_length_all_some (checkOne : FootprintPath → Option TraversabilityResult)
    (ps : List FootprintPath)
    (h : ∀ p ∈ ps, (checkOne p).isSome = true) :
    (ps.filterMap checkOne).length = ps.length := by
  induction ps with
  | nil => rfl
  | cons p ps ih =>
    obtain ⟨r, hr⟩ := Option.isSome_iff_exists.mp (h p (by simp))
    simp [List.filterMap_cons, hr, ih (fun q hq => h q (by simp [hq]))]

/-- **C3.** A non-empty batch in which no individual path check fails
succeeds and returns exactly one result per path, in input order; a batch
containing any failing path reports failure and, under ROS service
semantics, delivers no partial results to the caller. -/
theorem checkFootprintPath_batch (checkOne : FootprintPath → Option TraversabilityResult)
    (paths : List FootprintPath) :
    (paths ≠ [] → (∀ p ∈ paths, (checkOne p).isSome = true) →
      checkFootprintPath checkOne paths = (true, paths.filterMap checkOne)
      ∧ (paths.filterMap checkOne).length = paths.length
      ∧ callerView (checkFootprintPath checkOne paths) = some (paths.filterMap checkOne))
    ∧ ((∃ p ∈ paths, checkOne p = none) →
      (checkFootprintPath checkOne paths).1 = false
      ∧ callerView (checkFootprintPath checkOne paths) = none) := by
  constructor
  · intro hne hall
    have hstart : checkFootprintPath checkOne paths = checkLoop checkOne paths [] := by
      cases paths with
      | nil => exact absurd rfl hne
      | cons p ps => rfl
    rw [hstart, checkLoop_all_some _ _ _ hall]
    refine ⟨by simp, filterMap_length_all_some _ _ hall, by simp [callerView]⟩
  · intro hex
    have hne : paths ≠ [] := by
      rintro rfl
      simp at hex
    have hstart : checkFootprintPath checkOne paths = checkLoop checkOne paths [] := by
      cases paths with
      | nil => exact absurd rfl hne
      | cons p ps => rfl
    have hfail := checkLoop_fail checkOne paths [] hex
    rw [hstart]
    exact ⟨hfail, by simp [callerView, hfail]⟩

/-- Witness for C3 at concrete inputs: a two-path batch where both checks
succeed yields both results; a batch with one failing path fails. -/
theorem checkFootprintPath_batch_witness :
    checkFootprintPath checkOneW pathsW = (true, pathsW.filterMap checkOneW)
    ∧ (checkFootprintPath checkOneW pathsFailW).1 = false := by
  have h1 := (checkFootprintPath_batch checkOneW pathsW).1 (by decide) (by decide)
  have h2 := (checkFootprintPath_batch checkOneW pathsFailW).2
    ⟨{ poses := [] }, by decide, rfl⟩
  exact ⟨h1.1, h2.1⟩

/-- **C6.** An empty path batch is rejected with an explicit failure and
zero results: the handler returns false with an empty result list, so the
caller observes failure, not an empty success. -/
theorem checkFootprintPath_empty (checkOne : FootprintPath → Option TraversabilityResult) :
    checkFootprintPath checkOne [] = (false, [])
    ∧ callerView (checkFootprintPath checkOne []) = none := by
  exact ⟨rfl, rfl⟩

/-! Lemmas for the submap query surface. -/

theorem toMessageLayers_all_present (m : GridMap) (ls : List String)
    (h : ∀ n ∈ ls, m.hasLayer n = true) :
    (toMessageLayers m ls).layers = ls.map (fun n => (n, m.get n)) := by
  show ls.filterMap (fun n => if m.hasLayer n then some (n, m.get n) else none) = _
  induction ls with
  | nil => rfl
  | cons n ls ih =>
    simp only [List.filterMap_cons, h n (by simp), if_true, List.map_cons]
    rw [ih (fun x hx => h x (by simp [hx]))]

/-- **C4.** `getTraversabilityMap` returns all layers of the extracted submap
when the requested layer set is empty, exactly the named layers (in request
order, with the submap's data) when it is non-empty, and reports the
extraction's failure explicitly — when the requested region is not
extractable the handler returns false, so the caller receives failure and no
partial data. -/
theorem getTraversabilityMap_layers
    (getSubmap : GridMap → ℚ × ℚ → ℚ × ℚ → GridMap × Bool)
    (e : EngineState) (req : GetGridMapRequest) :
    (req.layers = [] →
      (getTraversabilityMap getSubmap e req).2
        = (getSubmap e.traversability (req.positionX, req.positionY)
            (req.lengthX, req.lengthY)).1)
    ∧ (req.layers ≠ [] →
        (∀ n ∈ req.layers,
          (getSubmap e.traversability (req.positionX, req.positionY)
            (req.lengthX, req.lengthY)).1.hasLayer n = true) →
        (getTraversabilityMap getSubmap e req).2.layers
          = req.layers.map (fun n =>
              (n, (getSubmap e.traversability (req.positionX, req.positionY)
                    (req.lengthX, req.lengthY)).1.get n)))
    ∧ ((getSubmap e.traversability (req.positionX, req.positionY)
          (req.lengthX, req.lengthY)).2 = false →
        (getTraversabilityMap getSubmap e req).1 = false
        ∧ callerView (getTraversabilityMap getSubmap e req) = none)
    ∧ ((getTraversabilityMap getSubmap e req).1
        = (getSubmap e.traversability (req.positionX, req.positionY)
            (req.lengthX, req.lengthY)).2) := by
  refine ⟨?allLayers, ?named, ?fail, ?flag⟩
  case allLayers =>
    intro h
    simp [getTraversabilityMap, h, toMessageAll]
  case named =>
    intro hne hall
    have hempty : req.layers.isEmpty = false := by
      cases hh : req.layers with
      | nil => exact absurd hh hne
      | cons a as => rfl
    simp only [getTraversabilityMap, hempty, Bool.false_eq_true, if_false]
    exact toMessageLayers_all_present _ _ hall
  case fail =>
    intro h
    have hflag : (getTraversabilityMap getSubmap e req).1
        = (getSubmap e.traversability (req.positionX, req.positionY)
            (req.lengthX, req.lengthY)).2 := by
      by_cases hl : req.layers.isEmpty <;> simp [getTraversabilityMap, hl]
    rw [hflag, h]
    exact ⟨rfl, by simp [callerView, hflag, h]⟩
  case flag =>
    by_cases hl : req.layers.isEmpty <;> simp [getTraversabilityMap, hl]

/-- Witness for C4 at concrete inputs: empty request returns all layers,
a named request returns exactly that layer, a failed extraction yields
no data for the caller. -/
theorem getTraversabilityMap_layers_witness :
    (getTraversabilityMap getSubmapOkW engineW reqAllW).2 = mapW
    ∧ (getTraversabilityMap getSubmapOkW engineW reqElevW).2.layers
        = [("elevation", [1, 2, 3])]
    ∧ callerView (getTraversabilityMap getSubmapFailW engineW reqAllW) = none := by
  have h1 := (getTraversabilityMap_layers getSubmapOkW engineW reqAllW).1 rfl
  have h2 := (getTraversabilityMap_layers getSubmapOkW engineW reqElevW).2.1
    (by decide) (by decide)
  have h3 := ((getTraversabilityMap_layers getSubmapFailW engineW reqAllW).2.2.1 rfl).2
  refine ⟨h1, ?_, h3⟩
  rw [h2]
  decide

/-- **C5.** A PULL-mode update whose coordinate-transform lookup throws
fails and aborts with no state change: the returned state is the input state
(the engine's elevation input is untouched), no effect is emitted (no pull
request, no elevation hand-off, no compute invocation), and the result is
failure. -/
theorem transform_unavailable_aborts (ext : Ext) (cfg : Config) (env : PullEnv)
    (s : NodeState) (hmode : s.getImageCallback = false)
    (htf : env.transformedPoint = none) :
    updateTraversability ext cfg env s = (s, [], false) := by
  unfold updateTraversability
  rw [hmode]
  by_cases hp : env.providerExists
  · simp [hp, requestElevationMap, htf]
  · simp [hp]

/-- Witness for C5 at concrete inputs. -/
theorem transform_unavailable_aborts_witness :
    updateTraversability extW cfgW envTfFailW (initState "map")
      = (initState "map", [], false) :=
  transform_unavailable_aborts extW cfgW envTfFailW (initState "map") rfl rfl

/-- **C7.** The map-info service with periodic updates disabled
(`updateDuration_` zero) first runs `updateTraversability` and fails the
whole operation when that fails; with periodic updates enabled it neither
changes state nor emits any effect (no update is triggered); and any
successful response carries the frame id, resolution, physical lengths and
anchor pose of the current traversability payload. -/
theorem updateServiceCallback_info (ext : Ext) (cfg : Config) (env : PullEnv)
    (s : NodeState) :
    ((updateTraversability ext cfg env s).2.2 = false →
      updateServiceCallback ext cfg env true s
        = ((updateTraversability ext cfg env s).1,
           (updateTraversability ext cfg env s).2.1, none))
    ∧ ((updateServiceCallback ext cfg env true s).1
          = (updateTraversability ext cfg env s).1
        ∧ (updateServiceCallback ext cfg env true s).2.1
          = (updateTraversability ext cfg env s).2.1)
    ∧ ((updateServiceCallback ext cfg env false s).1 = s
        ∧ (updateServiceCallback ext cfg env false s).2.1 = [])
    ∧ (∀ info : GridMapInfo,
        (updateServiceCallback ext cfg env true s).2.2 = some info →
        info.frameId = (updateTraversability ext cfg env s).1.engine.mapFrameId
        ∧ info.resolution
            = (updateTraversability ext cfg env s).1.engine.traversability.geometry.resolution
        ∧ info.lengthX
            = (updateTraversability ext cfg env s).1.engine.traversability.geometry.lengthX
        ∧ info.lengthY
            = (updateTraversability ext cfg env s).1.engine.traversability.geometry.lengthY
        ∧ info.pose.positionX
            = (updateTraversability ext cfg env s).1.engine.traversability.geometry.positionX
        ∧ info.pose.positionY
            = (updateTraversability ext cfg env s).1.engine.traversability.geometry.positionY)
    ∧ (∀ info : GridMapInfo,
        (updateServiceCallback ext cfg env false s).2.2 = some info →
        info = mapInfoResponse s.engine) := by
  refine ⟨?failFirst, ?runsUpdate, ?noUpdate, ?infoZero, ?infoTimer⟩
  case failFirst =>
    intro h
    simp [updateServiceCallback, h]
  case runsUpdate =>
    by_cases h : (updateTraversability ext cfg env s).2.2 <;>
      by_cases hi : (updateTraversability ext cfg env s).1.engine.initialized <;>
        simp [updateServiceCallback, h, hi]
  case noUpdate =>
    by_cases hi : s.engine.initialized <;> simp [updateServiceCallback, hi]
  case infoZero =>
    intro info hinfo
    by_cases h : (updateTraversability ext cfg env s).2.2
    · by_cases hi : (updateTraversability ext cfg env s).1.engine.initialized
      · have : some (mapInfoResponse (updateTraversability ext cfg env s).1.engine)
            = some info := by
          rw [← hinfo]
          simp [updateServiceCallback, h, hi]
        have hr := Option.some.inj this
        rw [← hr]
        exact ⟨rfl, rfl, rfl, rfl, rfl, rfl⟩
      · simp [updateServiceCallback, h, hi] at hinfo
    · simp [updateServiceCallback, h] at hinfo
  case infoTimer =>
    intro info hinfo
    by_cases hi : s.engine.initialized
    · have : some (mapInfoResponse s.engine) = some info := by
        rw [← hinfo]
        simp [updateServiceCallback, hi]
      exact (Option.some.inj this).symm
    · simp [updateServiceCallback, hi] at hinfo

/-- Witness for C7 at concrete inputs: with rate zero and a transform
failure the whole info operation fails; with the timer enabled the
ready engine answers with the payload's geometry. -/
theorem updateServiceCallback_info_witness :
    updateServiceCallback extW cfgW envTfFailW true (initState "map")
      = (initState "map", [], none)
    ∧ (updateServiceCallback extW cfgW envW false { initState "map" with engine := engineW }).2.1
      = [] := by
  have h1 := (updateServiceCallback_info extW cfgW envTfFailW (initState "map")).1 (by decide)
  have h2 := (updateServiceCallback_info extW cfgW envW
    { initState "map" with engine := engineW }).2.2.1.2
  constructor
  · rw [h1]
    decide
  · exact h2

/-- **C8.** Every pull request issued by `updateTraversability` carries the
transform-resolved anchor position, the configured lengths and exactly the
layer set `{elevation, upper_bound, lower_bound}`; and in PULL mode with the
provider reachable and the transform resolved, such a request is issued. -/
theorem pull_request_construction (ext : Ext) (cfg : Config) (env : PullEnv)
    (s : NodeState) :
    (∀ req : SubmapRequest,
      Effect.pullRequest req ∈ (updateTraversability ext cfg env s).2.1 →
      ∃ p : ℚ × ℚ, env.transformedPoint = some p
        ∧ req = { positionX := p.1, positionY := p.2,
                  lengthX := cfg.mapLengthX, lengthY := cfg.mapLengthY,
                  layers := ["elevation", "upper_bound", "lower_bound"] })
    ∧ (s.getImageCallback = false → env.providerExists = true →
        ∀ p : ℚ × ℚ, env.transformedPoint = some p →
        Effect.pullRequest
          { positionX := p.1, positionY := p.2,
            lengthX := cfg.mapLengthX, lengthY := cfg.mapLengthY,
            layers := ["elevation", "upper_bound", "lower_bound"] }
          ∈ (updateTraversability ext cfg env s).2.1) := by
  constructor
  · intro req hmem
    by_cases hg : s.getImageCallback
    · simp [updateTraversability, hg] at hmem
    · by_cases hp : env.providerExists
      · cases htf : env.transformedPoint with
        | none =>
          simp [updateTraversability, hg, hp, requestElevationMap, htf] at hmem
        | some p =>
          refine ⟨p, rfl, ?_⟩
          cases hsr : env.serviceResponse with
          | none =>
            simp [updateTraversability, hg, hp, requestElevationMap, htf, hsr,
              elevationMapLayers] at hmem
            exact hmem
          | some m =>
            simp [updateTraversability, hg, hp, requestElevationMap, htf, hsr,
              elevationMapLayers] at hmem
            exact hmem
      · simp [updateTraversability, hg, hp] at hmem
  · intro hg hp p htf
    cases hsr : env.serviceResponse with
    | none =>
      simp [updateTraversability, hg, hp, requestElevationMap, htf, hsr,
        elevationMapLayers]
    | some m =>
      simp [updateTraversability, hg, hp, requestElevationMap, htf, hsr,
        elevationMapLayers]

/-- Witness for C8 at concrete inputs. -/
theorem pull_request_construction_witness :
    Effect.pullRequest
      { positionX := 1, positionY := 2, lengthX := cfgW.mapLengthX,
        lengthY := cfgW.mapLengthY,
        layers := ["elevation", "upper_bound", "lower_bound"] }
      ∈ (updateTraversability extW cfgW envW (initState "map")).2.1 :=
  (pull_request_construction extW cfgW envW (initState "map")).2 rfl rfl (1, 2) rfl

/-- **C10.** The map-info response always reports the identity quaternion as
orientation (w = 1, x = y = z = 0), for every engine state; only the anchor
position's x and y come from the payload, and z is always zero. -/
theorem mapInfo_identity_orientation (e : EngineState) :
    (mapInfoResponse e).pose.orientation = { x := 0, y := 0, z := 0, w := 1 }
    ∧ (mapInfoResponse e).pose.positionX = e.traversability.geometry.positionX
    ∧ (mapInfoResponse e).pose.positionY = e.traversability.geometry.positionY
    ∧ (mapInfoResponse e).pose.positionZ = 0 :=
  ⟨rfl, rfl, rfl, rfl⟩

/-! Lemmas about the layer-completion loop of `loadElevationMap`. -/

theorem addMissing_geometry (m : GridMap) (l : String) :
    (if m.hasLayer l then m else m.add l 0).geometry = m.geometry := by
  by_cases h : m.hasLayer l <;> simp [h, GridMap.add_geometry]

theorem addMissing_hasLayer_self (m : GridMap) (l : String) :
    (if m.hasLayer l then m else m.add l 0).hasLayer l = true := by
  by_cases h : m.hasLayer l
  · simp [h]
  · simp [h, GridMap.hasLayer_add]

theorem addMissing_hasLayer_mono (m : GridMap) (l n : String)
    (h : m.hasLayer n = true) :
    (if m.hasLayer l then m else m.add l 0).hasLayer n = true := by
  by_cases hl : m.hasLayer l
  · simpa [hl] using h
  · simp [hl, GridMap.hasLayer_add, h]

theorem addMissing_hasLayer_ne_false (m : GridMap) (l n : String)
    (hne : l ≠ n) (h : m.hasLayer n = false) :
    (if m.hasLayer l then m else m.add l 0).hasLayer n = false := by
  by_cases hl : m.hasLayer l
  · simpa [hl] using h
  · simp [hl, GridMap.hasLayer_add, h, hne]

theorem addMissing_get_of_hasLayer (m : GridMap) (l n : String)
    (h : m.hasLayer n = true) :
    (if m.hasLayer l then m else m.add l 0).get n = m.get n := by
  by_cases hl : m.hasLayer l
  · simp [hl]
  · have hne : l ≠ n := by
      intro hc
      rw [hc] at hl
      exact hl (by simpa using h)
    simp [hl, GridMap.get_add_ne _ _ _ _ hne]

theorem addMissing_get_self_missing (m : GridMap) (l : String)
    (h : m.hasLayer l = false) :
    (if m.hasLayer l then m else m.add l 0).get l
      = List.replicate (m.geometry.sizeX * m.geometry.sizeY) 0 := by
  simp [h, GridMap.get_add_self]

theorem addMissingLayersAux_geometry (ls : List String) (m : GridMap) :
    (addMissingLayersAux ls m).geometry = m.geometry := by
  induction ls generalizing m with
  | nil => rfl
  | cons l ls ih =>
    rw [addMissingLayersAux, ih, addMissing_geometry]

theorem addMissingLayersAux_hasLayer_mono (ls : List String) (m : GridMap) (n : String)
    (h : m.hasLayer n = true) :
    (addMissingLayersAux ls m).hasLayer n = true := by
  induction ls generalizing m with
  | nil => exact h
  | cons l ls ih =>
    exact ih _ (addMissing_hasLayer_mono _ _ _ h)

theorem addMissingLayersAux_hasLayer_mem (ls : List String) (m : GridMap) (n : String)
    (h : n ∈ ls) :
    (addMissingLayersAux ls m).hasLayer n = true := by
  induction ls generalizing m with
  | nil => simp at h
  | cons l ls ih =>
    rcases List.mem_cons.mp h with rfl | h2
    · exact addMissingLayersAux_hasLayer_mono ls _ _ (addMissing_hasLayer_self m n)
    · exact ih _ h2

theorem addMissingLayersAux_get_of_hasLayer (ls : List String) (m : GridMap) (n : String)
    (h : m.hasLayer n = true) :
    (addMissingLayersAux ls m).get n = m.get n := by
  induction ls generalizing m with
  | nil => rfl
  | cons l ls ih =>
    rw [addMissingLayersAux, ih _ (addMissing_hasLayer_mono _ _ _ h),
      addMissing_get_of_hasLayer _ _ _ h]

theorem addMissingLayersAux_get_missing (ls : List String) (m : GridMap) (n : String)
    (hmem : n ∈ ls) (h : m.hasLayer n = false) :
    (addMissingLayersAux ls m).get n
      = List.replicate (m.geometry.sizeX * m.geometry.sizeY) 0 := by
  induction ls generalizing m with
  | nil => simp at hmem
  | cons l ls ih =>
    by_cases hl : l = n
    · subst hl
      rw [addMissingLayersAux,
        addMissingLayersAux_get_of_hasLayer ls _ _ (addMissing_hasLayer_self m l),
        addMissing_get_self_missing m l h]
    · rcases List.mem_cons.mp hmem with rfl | hmem2
      · exact absurd rfl hl
      · rw [addMissingLayersAux,
          ih _ hmem2 (addMissing_hasLayer_ne_false m l n hl h),
          addMissing_geometry]

/-- **C9.** Loading a persisted elevation payload adds each required layer
missing from it (elevation, upper_bound, lower_bound) with value zero instead
of failing, keeps the data of layers that were present, hands the completed
map to the engine; a read failure is reported as failure with the engine
untouched; and a successful load followed by a compute failure is still an
overall failure. -/
theorem loadElevationMap_missing_layers (compute : Option GridMap → Option GridMap)
    (loadResult : Option GridMap) (now : Nat) (e : EngineState) :
    (loadResult = none → loadElevationMap compute loadResult now e = (false, e))
    ∧ (∀ m : GridMap, loadResult = some m →
        (loadElevationMap compute loadResult now e).2.elevationInput
            = some ((addMissingLayers m).setTimestamp now)
        ∧ (∀ layer ∈ elevationMapLayers,
            ((addMissingLayers m).setTimestamp now).hasLayer layer = true)
        ∧ (∀ layer ∈ elevationMapLayers, m.hasLayer layer = false →
            ((addMissingLayers m).setTimestamp now).get layer
              = List.replicate (m.geometry.sizeX * m.geometry.sizeY) 0)
        ∧ (∀ layer : String, m.hasLayer layer = true →
            ((addMissingLayers m).setTimestamp now).get layer = m.get layer)
        ∧ (compute (some ((addMissingLayers m).setTimestamp now)) = none →
            loadElevationMap compute loadResult now e
              = (false, e.setElevationMap ((addMissingLayers m).setTimestamp now)))) := by
  constructor
  · intro h
    rw [h]
    rfl
  · intro m hm
    subst hm
    refine ⟨?input, ?present, ?missing, ?kept, ?computeFail⟩
    case input =>
      show ((e.setElevationMap ((addMissingLayers m).setTimestamp now)).computeTraversability
        compute).2.elevationInput = _
      rw [computeTraversability_elevationInput]
      rfl
    case present =>
      intro layer hl
      rw [GridMap.setTimestamp_hasLayer]
      exact addMissingLayersAux_hasLayer_mem elevationMapLayers m layer hl
    case missing =>
      intro layer hl hmiss
      rw [GridMap.setTimestamp_get]
      exact addMissingLayersAux_get_missing elevationMapLayers m layer hl hmiss
    case kept =>
      intro layer hp
      rw [GridMap.setTimestamp_get]
      exact addMissingLayersAux_get_of_hasLayer elevationMapLayers m layer hp
    case computeFail =>
      intro hc
      show (e.setElevationMap ((addMissingLayers m).setTimestamp now)).computeTraversability
        compute = _
      unfold EngineState.computeTraversability
      rw [show (e.setElevationMap ((addMissingLayers m).setTimestamp now)).elevationInput
          = some ((addMissingLayers m).setTimestamp now) from rfl, hc]

/-- Witness for C9 at concrete inputs: a persisted map holding only the
elevation layer gains zero-filled bound layers; a read failure fails with
the engine untouched. -/
theorem loadElevationMap_missing_layers_witness :
    loadElevationMap extW.compute none 5 engineW = (false, engineW)
    ∧ ((loadElevationMap extW.compute (some loadMapW) 5 engineW).2.elevationInput.getD
        emptyGridMap).hasLayer "upper_bound" = true
    ∧ ((loadElevationMap extW.compute (some loadMapW) 5 engineW).2.elevationInput.getD
        emptyGridMap).get "upper_bound" = List.replicate 2 0
    ∧ ((loadElevationMap extW.compute (some loadMapW) 5 engineW).2.elevationInput.getD
        emptyGridMap).get "elevation" = [1, 2] := by
  have h0 := (loadElevationMap_missing_layers extW.compute none 5 engineW).1 rfl
  obtain ⟨hin, hall, hmiss, hkept, -⟩ :=
    (loadElevationMap_missing_layers extW.compute (some loadMapW) 5 engineW).2 loadMapW rfl
  rw [hin]
  refine ⟨h0, hall "upper_bound" (by decide), ?_, ?_⟩
  · have h := hmiss "upper_bound" (by decide) (by decide)
    simpa using h
  · have h := hkept "elevation" (by decide)
    rw [show (Option.getD (some ((addMissingLayers loadMapW).setTimestamp 5)) emptyGridMap)
        = (addMissingLayers loadMapW).setTimestamp 5 from rfl, h]
    decide

end TraversabilityEstimation
